import Mathlib

/-!
Shallow embedding of the fruit-jam-gamepad-tester sources (gamepad.py,
usb_descriptor.py, hid_report.py) and proofs about the embedded code.

Conventions used throughout:
- Python bytearrays / memoryviews become `List Nat` (one entry per byte).
- Python slices `d[a:b]` become `(d.drop a).take (b - a)`.
- Python `for i in range(limit)` loops that also advance a cursor are
  modelled with an explicit fuel argument initialised to `limit`.
- Python code that can raise becomes `Except PyErr _`; the error
  constructors record which Python exception the source would raise.
-/

/-! ## Data model from usb_descriptor.py -/

/-- Parsed configuration descriptor fields (usb_descriptor.py, class ConfigDesc). -/
structure ConfigDesc where
  bNumInterfaces : Nat
  bConfigurationValue : Nat
  bMaxPower : Nat
deriving DecidableEq

/-- Parsed interface descriptor fields (usb_descriptor.py, class InterfaceDesc). -/
structure InterfaceDesc where
  bInterfaceNumber : Nat
  bNumEndpoints : Nat
  bInterfaceClass : Nat
  bInterfaceSubClass : Nat
  bInterfaceProtocol : Nat
deriving DecidableEq

/-- Fields of usb_descriptor.py's class Descriptor that the classifier reads
(device descriptor triple, vid/pid, parsed configs and interfaces). -/
structure Descriptor where
  bDeviceClass : Nat
  bDeviceSubClass : Nat
  bDeviceProtocol : Nat
  idVendor : Nat
  idProduct : Nat
  configs : List ConfigDesc
  interfaces : List InterfaceDesc
deriving DecidableEq

/-- Descriptor.vid_pid from usb_descriptor.py. -/
def vid_pid (d : Descriptor) : Nat × Nat :=
  (d.idVendor, d.idProduct)

/-- Descriptor.dev_class_subclass_protocol from usb_descriptor.py. -/
def dev_class_subclass_protocol (d : Descriptor) : Nat × Nat × Nat :=
  (d.bDeviceClass, d.bDeviceSubClass, d.bDeviceProtocol)

/-- Descriptor.int0_class_subclass_protocol from usb_descriptor.py: the triple
of the first interface whose bInterfaceNumber is 0, else (None, None, None)
(modelled as `none`). -/
def int0_class_subclass_protocol (d : Descriptor) : Option (Nat × Nat × Nat) :=
  match d.interfaces.find? (fun i => i.bInterfaceNumber == 0) with
  | some i => some (i.bInterfaceClass, i.bInterfaceSubClass, i.bInterfaceProtocol)
  | none => none

/-! ## Classifier from gamepad.py -/

def TYPE_SWITCH_PRO : Nat := 1
def TYPE_ADAFRUIT_SNES : Nat := 2
def TYPE_8BITDO_ZERO2 : Nat := 3
def TYPE_XINPUT : Nat := 4
def TYPE_BOOT_MOUSE : Nat := 5
def TYPE_BOOT_KEYBOARD : Nat := 6
def TYPE_HID_COMPOSITE : Nat := 7
def TYPE_HID : Nat := 8

/-- gamepad.py is_hid_composite. -/
def is_hid_composite (d : Descriptor) : Bool :=
  decide (dev_class_subclass_protocol d = (0x00, 0x00, 0x00))
    && decide (int0_class_subclass_protocol d = some (0x03, 0x00, 0x00))

/-- gamepad.py is_xinput_gamepad: device triple must be (0xff,0xff,0xff) and
interface 0 triple must be (0xff,0x5d,0x01). -/
def is_xinput_gamepad (d : Descriptor) : Bool :=
  if dev_class_subclass_protocol d ≠ (0xff, 0xff, 0xff) then false
  else if int0_class_subclass_protocol d = some (0xff, 0x5d, 0x01) then true
  else false

/-- The vid/pid and descriptor fingerprint chain of gamepad.py
find_usb_device (the if/elif ladder after read_configuration succeeds).
Returns the detected device type constant, or `none` for
"IGNORING UNRECOGNIZED DEVICE". -/
def classify_device (d : Descriptor) : Option Nat :=
  let int0_info := int0_class_subclass_protocol d
  if vid_pid d = (0x057e, 0x2009) then some TYPE_SWITCH_PRO
  else if vid_pid d = (0x081f, 0xe401) then some TYPE_ADAFRUIT_SNES
  else if vid_pid d = (0x2dc8, 0x9018) then some TYPE_8BITDO_ZERO2
  else if is_xinput_gamepad d then some TYPE_XINPUT
  else if is_hid_composite d then some TYPE_HID_COMPOSITE
  else if int0_info = some (0x03, 0x01, 0x01) then some TYPE_BOOT_KEYBOARD
  else if int0_info = some (0x03, 0x01, 0x02) then some TYPE_BOOT_MOUSE
  else if int0_info = some (0x03, 0x00, 0x00) then some TYPE_HID
  else none

/-! ## Bus scan from gamepad.py find_usb_device

A device on the bus is modelled by what the two fallible steps of the scan
body would do for it: `descOutcome` is `some bytes` when
`usb_descriptor.Descriptor(device)` succeeds (the bytes are the 18-byte device
descriptor, whose string form is the cache key), `none` when it raises;
`configReadOk` is false when `desc.read_configuration(device)` raises
ValueError or USBError; `desc` holds the parsed descriptor contents the
classifier ladder reads. -/

structure DeviceModel where
  descOutcome : Option (List Nat)
  configReadOk : Bool
  desc : Descriptor

/-- gamepad.py find_usb_device: walk the bus device list with the
device_cache, returning the scan outcome (detected type, or None) together
with the updated cache. Exceptions from Descriptor() or read_configuration()
are caught and the loop continues with the next device. -/
def find_usb_device : List DeviceModel → List (List Nat) → Option Nat × List (List Nat)
  | [], cache => (none, cache)
  | dev :: rest, cache =>
    match dev.descOutcome with
    | none => find_usb_device rest cache
    | some k =>
      if k ∈ cache then (none, cache)
      else
        if dev.configReadOk then
          match classify_device dev.desc with
          | some t => (some t, k :: cache)
          | none => (none, k :: cache)
        else
          find_usb_device rest (k :: cache)

/-! ## Polling interval conversion from gamepad.py int0_read_generator -/

inductive USBSpeed where
  | low
  | full
  | high
deriving DecidableEq

/-- The bInterval handling at the top of gamepad.py int0_read_generator:
low/full speed keep the raw value as milliseconds, high speed computes
`interval = (2 << (interval - 1)) >> 3`. -/
def int0_effective_interval_ms (speed : USBSpeed) (bInterval : Nat) : Nat :=
  match speed with
  | .low => bInterval
  | .full => bInterval
  | .high => (2 <<< (bInterval - 1)) >>> 3

/-! ## Elapsed-time generator from gamepad.py elapsed_ms_generator

The generator keeps the previous reading t0 and yields
`(t1 - t0) & 0x3fffffff` for each new reading t1. For a mask of the form
2^n - 1, Python's `&` on a possibly negative int equals reduction mod 2^n,
so the delta is modelled as `(t1 - t0) % 2^30` over `Int`
(0x3fffffff + 1 = 1073741824 = 2^30). -/
def elapsed_ms_deltas (t0 : Nat) : List Nat → List Int
  | [] => []
  | t1 :: rest => (((t1 : Int) - (t0 : Int)) % 1073741824) :: elapsed_ms_deltas t1 rest

/-! ## XInput normalization from gamepad.py input_event_generator -/

/-- The XInput branch's filter lambda: `data[2:4]`. -/
def xinput_filter_fn (d : List Nat) : List Nat :=
  (d.drop 2).take 2

/-- struct.unpack_from with format <H: little-endian uint16 at an offset. -/
def unpack_from_u16le (d : List Nat) (offset : Nat) : Nat :=
  d.getD offset 0 + ((d.getD (offset + 1) 0) <<< 8)

/-- gamepad.py normalize_xinput: each filtered report (or None) becomes the
little-endian uint16 at offset 0 (or None). -/
def normalize_xinput : Option (List Nat) → Option Nat
  | none => none
  | some d => some (unpack_from_u16le d 0)

/-- One yielded report through the XInput pipeline: filter, then normalize. -/
def xinput_event_of_report (report : List Nat) : Option Nat :=
  normalize_xinput (some (xinput_filter_fn report))

/-! ## SwitchPro normalization from gamepad.py input_event_generator -/

def UP : Nat := 0x0001
def DOWN : Nat := 0x0002
def LEFT : Nat := 0x0004
def RIGHT : Nat := 0x0008
def START : Nat := 0x0010
def SELECT : Nat := 0x0020
def L : Nat := 0x0100
def R : Nat := 0x0200
def B : Nat := 0x1000
def A : Nat := 0x2000
def Y : Nat := 0x4000
def X : Nat := 0x8000

/-- The SwitchPro branch's filter lambda:
`None if (d[0] != 0x30) else d[3:6]`. -/
def switchpro_filter_fn (d : List Nat) : Option (List Nat) :=
  if d.getD 0 0 ≠ 0x30 then none else some ((d.drop 3).take 3)

/-- gamepad.py normalize_switchpro: None passes through; otherwise the three
filtered bytes are decoded into the canonical button bitfield. -/
def normalize_switchpro : Option (List Nat) → Option Nat
  | none => none
  | some d =>
    let d2 := d.getD 0 0
    let d3 := d.getD 1 0
    let d4 := d.getD 2 0
    let v : Nat := 0
    let v := if d2 = 0x01 then v ||| Y else v
    let v := if d2 = 0x02 then v ||| X else v
    let v := if d2 = 0x04 then v ||| B else v
    let v := if d2 = 0x08 then v ||| A else v
    let v := if d2 &&& 0x40 ≠ 0 then v ||| R else v
    let v := if d3 &&& 0x01 ≠ 0 then v ||| SELECT else v
    let v := if d3 &&& 0x02 ≠ 0 then v ||| START else v
    let v := if d4 &&& 0x01 ≠ 0 then v ||| DOWN else v
    let v := if d4 &&& 0x02 ≠ 0 then v ||| UP else v
    let v := if d4 &&& 0x04 ≠ 0 then v ||| RIGHT else v
    let v := if d4 &&& 0x08 ≠ 0 then v ||| LEFT else v
    let v := if d4 &&& 0x40 ≠ 0 then v ||| L else v
    some v

/-- One yielded report through the SwitchPro pipeline: filter, then normalize. -/
def switchpro_event_of_report (report : List Nat) : Option Nat :=
  normalize_switchpro (switchpro_filter_fn report)

/-! ## split_desc from usb_descriptor.py

The source walks the buffer with a cursor inside `for i in range(limit)`;
each pass either breaks or advances the cursor by the just-read length, so
the range bound is modelled as a fuel argument initialised to `len data`.
The bool in the result records whether the `cursor + length > limit` branch
ran; in the source that branch calls logger.error and breaks (it does not
raise), returning the slices collected so far. -/

def split_desc_go (data : List Nat) (cursor : Nat) : Nat → List (List Nat) × Bool
  | 0 => ([], false)
  | fuel + 1 =>
    if cursor = data.length then ([], false)
    else
      let length := data.getD cursor 0
      if length = 0 then ([], false)
      else if data.length < cursor + length then ([], true)
      else
        let r := split_desc_go data (cursor + length) fuel
        (((data.drop cursor).take length) :: r.1, r.2)

/-- usb_descriptor.py split_desc. -/
def split_desc (data : List Nat) : List (List Nat) × Bool :=
  split_desc_go data 0 data.length

/-- Well-formed framing: the declared length bytes are nonzero and exactly
tile the whole buffer (the shape of buffer that claim C7 quantifies over). -/
inductive Tiles : List Nat → Prop where
  | nil : Tiles []
  | cons (l : Nat) (rest : List Nat) : 0 < l → l ≤ rest.length + 1 →
      Tiles ((l :: rest).drop l) → Tiles (l :: rest)

/-! ## HID report descriptor parsing from hid_report.py

The items_ list of human-readable strings built by note() is not modelled:
no claim mentions it, and note() itself cannot raise (it special-cases a
None payload). What is modelled is everything that decides control flow and
everything that can raise, including the places where the source would
raise exceptions outside its declared ValueError contract: reading the
never-initialised self.usage_page attribute (AttributeError), formatting a
None payload with a numeric %-conversion (TypeError), and unpack_from
reading past the end of the buffer (struct.error). -/

inductive PyErr where
  /-- ValueError "HID Report descriptor: item size too big". -/
  | valueErrorItemSize
  /-- ValueError "HID Descriptor parser: Long items not supported". -/
  | valueErrorLongItem
  /-- AttributeError from reading self.usage_page before any assignment. -/
  | attributeError
  /-- TypeError from a numeric %-format applied to None. -/
  | typeError
  /-- struct error from unpack_from reading past the end of the buffer. -/
  | structError
deriving DecidableEq

/-- The mutable attributes of hid_report.py HIDReportDesc that parse_item
reads or writes. usage_page is `none` while the attribute is still unset. -/
structure HIDState where
  usage_page : Option Nat
  report_id : Option Nat
  report_size : Option Nat
  report_count : Option Nat
  indent : Int
deriving DecidableEq

def HID_USAGE_PAGE : Nat := 0x04
def HID_LOGICAL_MIN : Nat := 0x14
def HID_LOGICAL_MAX : Nat := 0x24
def HID_PHYSICAL_MIN : Nat := 0x34
def HID_PHYSICAL_MAX : Nat := 0x44
def HID_UNIT_EXPONENT : Nat := 0x54
def HID_UNIT : Nat := 0x64
def HID_REPORT_SIZE : Nat := 0x74
def HID_REPORT_ID : Nat := 0x84
def HID_REPORT_COUNT : Nat := 0x94
def HID_PUSH : Nat := 0xA4
def HID_POP : Nat := 0xB4
def HID_USAGE : Nat := 0x08
def HID_USAGE_MIN : Nat := 0x18
def HID_USAGE_MAX : Nat := 0x28
def HID_DESIGNATOR_IDX : Nat := 0x38
def HID_DESIGNATOR_MIN : Nat := 0x48
def HID_DESIGNATOR_MAX : Nat := 0x58
def HID_STRING_IDX : Nat := 0x78
def HID_STRING_MIN : Nat := 0x88
def HID_STRING_MAX : Nat := 0x98
def HID_DELIMITER : Nat := 0xA8
def HID_INPUT : Nat := 0x80
def HID_OUTPUT : Nat := 0x90
def HID_FEATURE : Nat := 0xB0
def HID_COLLECTION : Nat := 0xA0
def HID_END_COLLECTION : Nat := 0xC0
def HID_MAIN_00_NOP : Nat := 0x00
/-- Source name HID_LONG_ITEM_PREFIX (0xFE). -/
def HID_LONG_ITEM : Nat := 0xFE
def HID_SIZE_MASK : Nat := 0x03
def HID_TYPE_MASK : Nat := 0x0C
def HID_TAG_MASK : Nat := 0xF0

/-- hid_report.py parse_usage_page: every branch returns a description
string for an int payload; for a None payload the comparison chain reaches
`0xff00 <= data <= 0xffff`, which raises TypeError. -/
def parse_usage_page : Option Nat → Except PyErr Unit
  | some _ => .ok ()
  | none => .error .typeError

/-- hid_report.py parse_generic_desktop_usage: every branch returns a
string for an int payload; for None each equality test is False and the
final `%08x % data` raises TypeError. -/
def parse_generic_desktop_usage : Option Nat → Except PyErr Unit
  | some _ => .ok ()
  | none => .error .typeError

/-- hid_report.py parse_usage. The first statement `page = self.usage_page`
raises AttributeError when no Usage Page item has been parsed yet. For a
size-3 (4-byte) payload the high 16 bits override the page and the low 16
bits are the usage ID. Every page branch returns a string for an int ID and
raises TypeError on a None ID via a numeric %-format. -/
def parse_usage (usage_page : Option Nat) (size : Nat) (data : Option Nat) :
    Except PyErr Unit :=
  match usage_page with
  | none => .error .attributeError
  | some up =>
    let page := if size = 3 then (data.getD 0) >>> 16 else up
    let id_ : Option Nat := if size = 3 then some ((data.getD 0) &&& 0xffff) else data
    if page = 0x01 then parse_generic_desktop_usage id_
    else
      match id_ with
      | some _ => .ok ()
      | none => .error .typeError

/-- hid_report.py parse_collection_type: a string for an int payload; for
None the final `Unknown 0x%02x % data` raises TypeError. -/
def parse_collection_type : Option Nat → Except PyErr Unit
  | some _ => .ok ()
  | none => .error .typeError

/-- hid_report.py HIDReportDesc.parse_item. The elif ladder on tag_type, in
source order. Branches whose body is only a note() call (which cannot
raise) leave the state unchanged. -/
def parse_item (st : HIDState) (tag_type : Nat) (size : Nat) (data : Option Nat) :
    Except PyErr HIDState :=
  if tag_type = HID_LONG_ITEM then .error .valueErrorLongItem
  else if tag_type = HID_MAIN_00_NOP then .ok st
  else if tag_type = HID_USAGE_PAGE then
    match parse_usage_page data with
    | .error e => .error e
    | .ok _ => .ok { st with usage_page := data }
  else if tag_type = HID_LOGICAL_MIN then .ok st
  else if tag_type = HID_LOGICAL_MAX then .ok st
  else if tag_type = HID_PHYSICAL_MIN then .ok st
  else if tag_type = HID_PHYSICAL_MAX then .ok st
  else if tag_type = HID_UNIT_EXPONENT then .ok st
  else if tag_type = HID_UNIT then .ok st
  else if tag_type = HID_REPORT_SIZE then .ok { st with report_size := data }
  else if tag_type = HID_REPORT_ID then
    match data with
    | none => .error .typeError
    | some _ =>
      let st := if st.report_id ≠ none then { st with indent := st.indent - 2 } else st
      .ok { st with indent := st.indent + 2, report_id := data }
  else if tag_type = HID_REPORT_COUNT then .ok { st with report_count := data }
  else if tag_type = HID_PUSH then .ok st
  else if tag_type = HID_POP then .ok st
  else if tag_type = HID_USAGE then
    match parse_usage st.usage_page size data with
    | .error e => .error e
    | .ok _ => .ok st
  else if tag_type = HID_USAGE_MIN then .ok st
  else if tag_type = HID_USAGE_MAX then .ok st
  else if tag_type = HID_DESIGNATOR_IDX then .ok st
  else if tag_type = HID_DESIGNATOR_MIN then .ok st
  else if tag_type = HID_DESIGNATOR_MAX then .ok st
  else if tag_type = HID_STRING_IDX then .ok st
  else if tag_type = HID_STRING_MIN then .ok st
  else if tag_type = HID_STRING_MAX then .ok st
  else if tag_type = HID_DELIMITER then .ok st
  else if tag_type = HID_INPUT then .ok st
  else if tag_type = HID_OUTPUT then .ok st
  else if tag_type = HID_FEATURE then .ok st
  else if tag_type = HID_COLLECTION then
    match parse_collection_type data with
    | .error e => .error e
    | .ok _ => .ok { st with indent := st.indent + 2 }
  else if tag_type = HID_END_COLLECTION then .ok { st with indent := st.indent - 2 }
  else .ok st

/-- The item scan loop of hid_report.py HIDReportDesc.__init__. The loop is
`for i in range(limit)` with an inner cursor, modelled with fuel = limit.
unpack_from for a size-3 item reads 4 bytes at cursor+1 although the bounds
check only guaranteed size+1 = 4 bytes from cursor, so `cursor + 5 ≤ limit`
is what an in-bounds read actually needs. -/
def hid_parse_go (data : List Nat) : Nat → HIDState → Nat → Except PyErr HIDState
  | 0, st, _ => .ok st
  | fuel + 1, st, cursor =>
    let limit := data.length
    let prefixByte := data.getD cursor 0
    let size := prefixByte &&& HID_SIZE_MASK
    let tag_type := prefixByte &&& (HID_TAG_MASK ||| HID_TYPE_MASK)
    let next_cursor := cursor + size + 1
    if limit < next_cursor then .error .valueErrorItemSize
    else
      let item_data : Except PyErr (Option Nat) :=
        if size = 1 then .ok (some (data.getD (cursor + 1) 0))
        else if size = 2 then
          .ok (some (data.getD (cursor + 1) 0 + ((data.getD (cursor + 2) 0) <<< 8)))
        else if size = 3 then
          if cursor + 5 ≤ limit then
            .ok (some (data.getD (cursor + 1) 0 + ((data.getD (cursor + 2) 0) <<< 8)
              + ((data.getD (cursor + 3) 0) <<< 16) + ((data.getD (cursor + 4) 0) <<< 24)))
          else .error .structError
        else .ok none
      match item_data with
      | .error e => .error e
      | .ok d =>
        match parse_item st tag_type size d with
        | .error e => .error e
        | .ok st' =>
          if next_cursor = limit then .ok st'
          else hid_parse_go data fuel st' next_cursor

/-- Attribute values set at the top of HIDReportDesc.__init__ (usage_page is
never assigned there; indent defaults to 8). -/
def hid_init_state : HIDState :=
  { usage_page := none, report_id := none, report_size := none,
    report_count := none, indent := 8 }

/-- hid_report.py HIDReportDesc.__init__ applied to a descriptor buffer. -/
def hid_parse (data : List Nat) : Except PyErr HIDState :=
  hid_parse_go data data.length hid_init_state 0

/-! ## Concrete inputs used by counterexamples and witnesses -/

/-- An XInput-style clone whose configuration declares only one interface:
device triple (0xff,0xff,0xff), interface 0 triple (0xff,0x5d,0x01). -/
def xinput_clone_desc : Descriptor :=
  { bDeviceClass := 0xff, bDeviceSubClass := 0xff, bDeviceProtocol := 0xff,
    idVendor := 0x045e, idProduct := 0x028e,
    configs := [{ bNumInterfaces := 1, bConfigurationValue := 1, bMaxPower := 50 }],
    interfaces := [{ bInterfaceNumber := 0, bNumEndpoints := 2,
                     bInterfaceClass := 0xff, bInterfaceSubClass := 0x5d,
                     bInterfaceProtocol := 0x01 }] }

/-- A descriptor with every field zero or empty. -/
def null_descriptor : Descriptor :=
  { bDeviceClass := 0, bDeviceSubClass := 0, bDeviceProtocol := 0,
    idVendor := 0, idProduct := 0, configs := [], interfaces := [] }

/-- A bus device whose device-descriptor read succeeds (fingerprint [1,2,3])
but whose configuration read raises. -/
def failed_config_device : DeviceModel :=
  { descOutcome := some [1, 2, 3], configReadOk := false, desc := null_descriptor }

/-! ## Helper lemmas -/

theorem list_getD_drop : ∀ (n : Nat) (r : List Nat) (j : Nat),
    (List.drop n r).getD j 0 = r.getD (n + j) 0
  | 0, r, j => by simp
  | n + 1, [], j => by simp
  | n + 1, a :: t, j => by
    simp [List.getD_cons_succ, Nat.succ_add, list_getD_drop n t j]

theorem list_getD_take : ∀ (m : Nat) (r : List Nat) (j : Nat), j < m →
    (List.take m r).getD j 0 = r.getD j 0
  | 0, _, _, h => absurd h (by omega)
  | m + 1, [], j, _ => by simp
  | m + 1, _ :: t, 0, _ => by simp
  | m + 1, a :: t, j + 1, h => by
    simpa [List.getD_cons_succ] using list_getD_take m t j (by omega)

theorem drop_cons_getD (data : List Nat) (cursor l : Nat) (rest : List Nat)
    (h : data.drop cursor = l :: rest) :
    data.getD cursor 0 = l ∧ cursor < data.length := by
  constructor
  · have h2 := list_getD_drop cursor data 0
    rw [h] at h2
    simpa using h2.symm
  · by_contra hc
    push_neg at hc
    rw [List.drop_eq_nil_of_le hc] at h
    exact List.noConfusion h

theorem getD_default_of_le (data : List Nat) (cursor : Nat)
    (h : data.length ≤ cursor) : data.getD cursor 0 = 0 := by
  have : data.drop cursor = [] := List.drop_eq_nil_of_le h
  have h2 := list_getD_drop cursor data 0
  rw [this] at h2
  simpa using h2.symm

theorem land_fc_ne_fe (x : Nat) : x &&& 0xFC ≠ 0xFE := by
  intro h
  have h1 : (x &&& 0xFC).testBit 1 = (0xFE : Nat).testBit 1 := by rw [h]
  rw [Nat.testBit_land] at h1
  have h2 : (0xFC : Nat).testBit 1 = false := by decide
  have h3 : (0xFE : Nat).testBit 1 = true := by decide
  rw [h2, h3, Bool.and_false] at h1
  exact Bool.noConfusion h1

theorem find_usb_device_cache_mono :
    ∀ (devs : List DeviceModel) (cache : List (List Nat)) (k : List Nat),
      k ∈ cache → k ∈ (find_usb_device devs cache).2 := by
  intro devs
  induction devs with
  | nil => intro cache k hk; exact hk
  | cons dev rest ih =>
    intro cache k hk
    unfold find_usb_device
    split
    · exact ih cache k hk
    · split_ifs with hmem hcfg
      · exact hk
      · split <;> exact List.mem_cons_of_mem _ hk
      · exact ih _ k (List.mem_cons_of_mem _ hk)

theorem xinput_event_eq (r : List Nat) :
    xinput_event_of_report r = some (r.getD 2 0 + ((r.getD 3 0) <<< 8)) := by
  have h0 : (List.take 2 (List.drop 2 r)).getD 0 0 = r.getD 2 0 := by
    rw [list_getD_take 2 _ 0 (by omega), list_getD_drop]
  have h1 : (List.take 2 (List.drop 2 r)).getD 1 0 = r.getD 3 0 := by
    rw [list_getD_take 2 _ 1 (by omega), list_getD_drop]
  simp [xinput_event_of_report, normalize_xinput, unpack_from_u16le,
    xinput_filter_fn, h0, h1]

/-! ## Claim theorems -/

/-- Claim C1 counterexample: this descriptor has device triple
(0xff,0xff,0xff) and interface 0 triple (0xff,0x5d,0x01) but its
configuration declares only 1 interface (and only one interface is parsed),
yet is_xinput_gamepad still classifies it as XInput. The claimed
4-interface condition is not part of the classifier. -/
theorem is_xinput_ignores_interface_count :
    is_xinput_gamepad xinput_clone_desc = true
    ∧ xinput_clone_desc.configs.map ConfigDesc.bNumInterfaces = [1]
    ∧ xinput_clone_desc.interfaces.length = 1 :=
  ⟨by decide, by decide, by decide⟩

/-- Claim C1 (amended): the classifier assigns XInput exactly when the
device descriptor triple is (0xff,0xff,0xff) and the interface 0 triple is
(0xff,0x5d,0x01); the configuration's interface count is not consulted. -/
theorem is_xinput_gamepad_iff (d : Descriptor) :
    is_xinput_gamepad d = true ↔
      dev_class_subclass_protocol d = (0xff, 0xff, 0xff)
        ∧ int0_class_subclass_protocol d = some (0xff, 0x5d, 0x01) := by
  unfold is_xinput_gamepad
  split_ifs with h1 h2
  · exact iff_of_false (by simp) (fun hb => h1 hb.1)
  · exact iff_of_true rfl ⟨not_not.mp h1, h2⟩
  · exact iff_of_false (by simp) (fun hb => h2 hb.2)

/-- Claim C2: the high-speed conversion in int0_read_generator computes
(2 << (bInterval-1)) >> 3, which is 2^bInterval/8, not the claimed (and
source-documented) 2^(bInterval-1)/8: raw bInterval=4 yields 2 ms, not
1 ms. Low/full speed keep the raw value, as claimed. -/
theorem int0_interval_conversion_bug :
    int0_effective_interval_ms .high 4 = 2
    ∧ int0_effective_interval_ms .low 10 = 10
    ∧ int0_effective_interval_ms .full 10 = 10
    ∧ int0_effective_interval_ms .high 4 ≠ 2 ^ (4 - 1) / 8 :=
  ⟨by decide, by decide, by decide, by decide⟩

/-- Claim C3: the mask literal in elapsed_ms_generator is 0x3fffffff
(2^30 - 1) although the clock rolls over at 2^29 (and the source comment
says (2**29)-1). One rollover step t0 = 2^29 - 1, t1 = 0 (true elapsed
1 ms) yields delta 2^29 + 1 — larger than the whole rollover period, hence
not bounded by the true elapsed time modulo 2^29. With the rollover-sized
mask the delta would have been 1. -/
theorem elapsed_ms_rollover_bug :
    elapsed_ms_deltas 536870911 [0] = [536870913]
    ∧ (2 ^ 29 : Int) < 536870913
    ∧ ((0 : Int) - 536870911) % 2 ^ 29 = 1 :=
  ⟨by decide, by decide, by decide⟩

/-- Claim C8: XInput normalization is exactly the little-endian uint16 made
of raw-report bytes 2 and 3; bytes outside 2..3 never affect the result. -/
theorem normalize_xinput_reads_bytes_2_3 :
    (∀ r : List Nat, 4 ≤ r.length → r.getD 2 0 = 0x00 → r.getD 3 0 = 0x10 →
        xinput_event_of_report r = some 0x1000)
    ∧ (∀ r : List Nat, 4 ≤ r.length → r.getD 2 0 = 0x01 → r.getD 3 0 = 0x00 →
        xinput_event_of_report r = some 0x0001)
    ∧ (∀ r₁ r₂ : List Nat, 4 ≤ r₁.length → 4 ≤ r₂.length →
        r₁.getD 2 0 = r₂.getD 2 0 → r₁.getD 3 0 = r₂.getD 3 0 →
        xinput_event_of_report r₁ = xinput_event_of_report r₂) := by
  refine ⟨?_, ?_, ?_⟩
  · intro r _ h2 h3
    rw [xinput_event_eq, h2, h3]
    decide
  · intro r _ h2 h3
    rw [xinput_event_eq, h2, h3]
    decide
  · intro r₁ r₂ _ _ h2 h3
    rw [xinput_event_eq, xinput_event_eq, h2, h3]

/-- Claim C8 witness at a concrete 6-byte report. -/
theorem normalize_xinput_witness :
    (4 ≤ ([0xAA, 0xBB, 0x00, 0x10, 0xFF, 0x07] : List Nat).length
      ∧ ([0xAA, 0xBB, 0x00, 0x10, 0xFF, 0x07] : List Nat).getD 2 0 = 0x00
      ∧ ([0xAA, 0xBB, 0x00, 0x10, 0xFF, 0x07] : List Nat).getD 3 0 = 0x10)
    ∧ xinput_event_of_report [0xAA, 0xBB, 0x00, 0x10, 0xFF, 0x07] = some 0x1000 :=
  ⟨⟨by decide, by decide, by decide⟩,
    normalize_xinput_reads_bytes_2_3.1 _ (by decide) (by decide) (by decide)⟩

/-- Claim C9: the SwitchPro filter maps every report whose byte 0 is not
0x30 to None before normalization, so only reports with ID 0x30 can
produce a button-state value. -/
theorem switchpro_requires_report_id_30 :
    (∀ r : List Nat, 0 < r.length → r.getD 0 0 ≠ 0x30 →
        switchpro_event_of_report r = none)
    ∧ ∀ r v, switchpro_event_of_report r = some v → r.getD 0 0 = 0x30 := by
  constructor
  · intro r _ h
    unfold switchpro_event_of_report switchpro_filter_fn
    rw [if_pos h]
    rfl
  · intro r v h
    by_contra hc
    unfold switchpro_event_of_report switchpro_filter_fn at h
    rw [if_pos hc] at h
    exact Option.noConfusion h

/-- Claim C9 witness: report ID 0x21 yields no event whatever the other
bytes; an ID 0x30 report with all buttons clear yields bitfield 0. -/
theorem switchpro_requires_report_id_30_witness :
    (0 < ([0x21, 0xAA, 0xBB, 0xCC, 0xDD, 0xEE] : List Nat).length
      ∧ ([0x21, 0xAA, 0xBB, 0xCC, 0xDD, 0xEE] : List Nat).getD 0 0 ≠ 0x30
      ∧ switchpro_event_of_report [0x21, 0xAA, 0xBB, 0xCC, 0xDD, 0xEE] = none)
    ∧ (switchpro_event_of_report [0x30, 0, 0, 0, 0, 0] = some 0
      ∧ ([0x30, 0, 0, 0, 0, 0] : List Nat).getD 0 0 = 0x30) :=
  ⟨⟨by decide, by decide,
      switchpro_requires_report_id_30.1 _ (by decide) (by decide)⟩,
    ⟨by rfl, switchpro_requires_report_id_30.2 [0x30, 0, 0, 0, 0, 0] 0 (by rfl)⟩⟩

/-- Claim C10: find_usb_device records the fingerprint in the cache before
reading the configuration or classifying, so after one scan of a device
whose device-descriptor read succeeded — whatever the outcome, including a
configuration-read or classification error — scanning the same bus again
with the resulting cache skips the device and returns None. -/
theorem scan_caches_before_classification (dev : DeviceModel)
    (rest : List DeviceModel) (cache : List (List Nat)) (k : List Nat)
    (h : dev.descOutcome = some k) :
    k ∈ (find_usb_device (dev :: rest) cache).2
    ∧ find_usb_device (dev :: rest) (find_usb_device (dev :: rest) cache).2
        = (none, (find_usb_device (dev :: rest) cache).2) := by
  have hmem : k ∈ (find_usb_device (dev :: rest) cache).2 := by
    unfold find_usb_device
    split
    · next heq => rw [h] at heq; exact Option.noConfusion heq
    · next k' heq =>
      rw [h] at heq
      injection heq with hk'
      subst hk'
      split_ifs with hm hc
      · exact hm
      · split <;> exact List.mem_cons_self _ _
      · exact find_usb_device_cache_mono rest _ k (List.mem_cons_self _ _)
  refine ⟨hmem, ?_⟩
  conv_lhs => unfold find_usb_device
  split
  · next heq => rw [h] at heq; exact Option.noConfusion heq
  · next k' heq =>
    rw [h] at heq
    injection heq with hk'
    subst hk'
    rw [if_pos hmem]

/-- Claim C10 witness: a device whose configuration read fails is cached by
the first scan and skipped by the second. -/
theorem scan_caches_witness :
    failed_config_device.descOutcome = some [1, 2, 3]
    ∧ ([1, 2, 3] ∈ (find_usb_device [failed_config_device] []).2
      ∧ find_usb_device [failed_config_device]
            (find_usb_device [failed_config_device] []).2
          = (none, (find_usb_device [failed_config_device] []).2)) :=
  ⟨rfl, scan_caches_before_classification failed_config_device [] [] [1, 2, 3] rfl⟩

theorem split_desc_go_flatten_isPre :
    ∀ (fuel : Nat) (data : List Nat) (cursor : Nat),
      (split_desc_go data cursor fuel).1.flatten <+: data.drop cursor := by
  intro fuel
  induction fuel with
  | zero =>
    intro data cursor
    exact ⟨data.drop cursor, by simp [split_desc_go]⟩
  | succ f ih =>
    intro data cursor
    simp only [split_desc_go]
    split
    · exact ⟨data.drop cursor, by simp⟩
    · split
      · exact ⟨data.drop cursor, by simp⟩
      · split
        · exact ⟨data.drop cursor, by simp⟩
        · obtain ⟨t, ht⟩ := ih data (cursor + data.getD cursor 0)
          refine ⟨t, ?_⟩
          have hdd : data.drop (cursor + data.getD cursor 0)
              = (data.drop cursor).drop (data.getD cursor 0) := by
            rw [List.drop_drop, Nat.add_comm]
          rw [hdd] at ht
          simp only [List.flatten_cons, List.append_assoc, ht]
          exact List.take_append_drop _ _

theorem split_desc_go_err_strict :
    ∀ (fuel : Nat) (data : List Nat) (cursor : Nat),
      (split_desc_go data cursor fuel).2 = true →
      (split_desc_go data cursor fuel).1.flatten.length < (data.drop cursor).length := by
  intro fuel
  induction fuel with
  | zero => intro data cursor h; simp [split_desc_go] at h
  | succ f ih =>
    intro data cursor h
    simp only [split_desc_go] at h ⊢
    by_cases hcur : cursor = data.length
    · rw [if_pos hcur] at h; simp at h
    · rw [if_neg hcur] at h ⊢
      by_cases hlen0 : data.getD cursor 0 = 0
      · rw [if_pos hlen0] at h; simp at h
      · rw [if_neg hlen0] at h ⊢
        by_cases hover : data.length < cursor + data.getD cursor 0
        · rw [if_pos hover] at h ⊢
          -- error branch: slices are empty, but the buffer beyond cursor is not
          have hc : cursor < data.length := by
            by_contra hge
            exact hlen0 (getD_default_of_le data cursor (by omega))
          simp [List.length_drop]
          omega
        · rw [if_neg hover] at h ⊢
          have h2 := ih data (cursor + data.getD cursor 0) h
          simp only [List.flatten_cons, List.length_append, List.length_take,
            List.length_drop] at h2 ⊢
          omega

theorem split_desc_go_of_tiles :
    ∀ (rem : List Nat), Tiles rem → ∀ (data : List Nat) (cursor fuel : Nat),
      data.drop cursor = rem → rem.length ≤ fuel →
      (split_desc_go data cursor fuel).1.flatten = rem
        ∧ (split_desc_go data cursor fuel).2 = false := by
  intro rem ht
  induction ht with
  | nil =>
    intro data cursor fuel hdrop hlen
    cases fuel with
    | zero => simp [split_desc_go]
    | succ f =>
      unfold split_desc_go
      by_cases hc : cursor = data.length
      · rw [if_pos hc]; simp
      · rw [if_neg hc]
        have hle : data.length ≤ cursor := by
          have := congrArg List.length hdrop
          simp [List.length_drop] at this
          omega
        rw [getD_default_of_le data cursor hle]
        simp
  | cons l rst hl hle htl ih =>
    intro data cursor fuel hdrop hlen
    obtain ⟨hg, hcur⟩ := drop_cons_getD data cursor l rst hdrop
    cases fuel with
    | zero => simp at hlen
    | succ f =>
      unfold split_desc_go
      rw [if_neg (by omega : ¬ cursor = data.length)]
      rw [hg]
      rw [if_neg (by omega : ¬ l = 0)]
      have hremlen : data.length - cursor = rst.length + 1 := by
        have := congrArg List.length hdrop
        simp [List.length_drop] at this
        omega
      have hfit : ¬ (data.length < cursor + l) := by omega
      rw [if_neg hfit]
      have hdd : data.drop (cursor + l) = (l :: rst).drop l := by
        rw [← hdrop, List.drop_drop, Nat.add_comm]
      have hlen2 : ((l :: rst).drop l).length ≤ f := by
        simp [List.length_drop]
        simp at hlen
        omega
      obtain ⟨ih1, ih2⟩ := ih data (cursor + l) f hdd hlen2
      constructor
      · simp only [List.flatten_cons, ih1, hdrop]
        exact List.take_append_drop _ _
      · exact ih2

theorem split_desc_go_zero_term :
    ∀ (t : List Nat), Tiles t → ∀ (data : List Nat) (cursor fuel : Nat) (rest : List Nat),
      data.drop cursor = t ++ 0 :: rest → t.length + 1 ≤ fuel →
      (split_desc_go data cursor fuel).2 = false := by
  intro t ht
  induction ht with
  | nil =>
    intro data cursor fuel rest hdrop hfuel
    cases fuel with
    | zero => omega
    | succ f =>
      obtain ⟨hg, hcur⟩ := drop_cons_getD data cursor 0 rest (by simpa using hdrop)
      unfold split_desc_go
      rw [if_neg (by omega : ¬ cursor = data.length)]
      rw [hg]
      simp
  | cons l rst hl hle htl ih =>
    intro data cursor fuel rest hdrop hfuel
    cases fuel with
    | zero => simp at hfuel
    | succ f =>
      obtain ⟨hg, hcur⟩ := drop_cons_getD data cursor l (rst ++ 0 :: rest)
        (by simpa using hdrop)
      unfold split_desc_go
      rw [if_neg (by omega : ¬ cursor = data.length)]
      rw [hg]
      rw [if_neg (by omega : ¬ l = 0)]
      have hremlen : data.length - cursor = rst.length + 2 + rest.length := by
        have := congrArg List.length hdrop
        simp [List.length_drop, List.length_append] at this
        omega
      have hle2 : l ≤ rst.length + 1 := hle
      rw [if_neg (by omega : ¬ (data.length < cursor + l))]
      have hdd : data.drop (cursor + l) = (l :: rst).drop l ++ 0 :: rest := by
        rw [← List.drop_append_of_le_length (by simpa using hle2), ← hdrop,
          List.drop_drop, Nat.add_comm]
      have hfuel2 : ((l :: rst).drop l).length + 1 ≤ f := by
        simp [List.length_drop]
        simp at hfuel
        omega
      exact ih data (cursor + l) f rest hdd hfuel2

/-- Claim C4 counterexample: on [2, 5, 9] the declared second sub-length 9
would run past the end, and split_desc returns the truncated slice list
[[2, 5]] (after logging an error — the boolean records the logger.error
branch); nothing is raised and the result is a strict truncation of the
input, not a failure. -/
theorem split_desc_truncates_on_bad_length :
    split_desc [2, 5, 9] = ([[2, 5]], true)
    ∧ (split_desc [2, 5, 9]).1.flatten = [2, 5]
    ∧ ([2, 5] : List Nat) ≠ [2, 5, 9] :=
  ⟨by decide, by decide, by decide⟩

/-- Claim C4 (amended): an over-long declared sub-length stops the walk
with an error logged and yields the slices collected so far — always a
strict truncation of the buffer, never out-of-bounds data (the
concatenation of the returned slices is a prefix of the buffer); a
zero-length byte after well-formed tiles ends the walk without the error
log. -/
theorem split_desc_amended_behavior :
    (∀ data : List Nat, (split_desc data).1.flatten <+: data)
    ∧ (∀ data : List Nat, (split_desc data).2 = true →
        (split_desc data).1.flatten ≠ data)
    ∧ (∀ (t rest : List Nat), Tiles t →
        (split_desc (t ++ 0 :: rest)).2 = false) := by
  refine ⟨?_, ?_, ?_⟩
  · intro data
    have := split_desc_go_flatten_isPre data.length data 0
    simpa using this
  · intro data h hc
    have := split_desc_go_err_strict data.length data 0 h
    rw [List.drop_zero] at this
    rw [show (split_desc_go data 0 data.length).1 = (split_desc data).1 from rfl,
      hc] at this
    omega
  · intro t rest ht
    exact split_desc_go_zero_term t ht (t ++ 0 :: rest) 0 (t ++ 0 :: rest).length
      rest (by simp) (by simp)

/-- Claim C4 witness: the over-long input from the counterexample hits the
error-and-truncate case, and a tiled buffer followed by a zero byte ends
cleanly. -/
theorem split_desc_amended_witness :
    ((split_desc [2, 5, 9]).2 = true ∧ (split_desc [2, 5, 9]).1.flatten ≠ [2, 5, 9])
    ∧ (Tiles [2, 9] ∧ (split_desc ([2, 9] ++ 0 :: [5])).2 = false) :=
  have ht : Tiles [2, 9] := Tiles.cons 2 [9] (by decide) (by decide) Tiles.nil
  ⟨⟨by decide, split_desc_amended_behavior.2.1 [2, 5, 9] (by decide)⟩,
    ⟨ht, split_desc_amended_behavior.2.2 [2, 9] [5] ht⟩⟩

/-- Claim C7: on a buffer whose declared sub-lengths exactly tile it
(nonzero lengths, no zero terminator), splitting and re-concatenating the
slices reproduces the original bytes, and the error branch is never taken. -/
theorem split_desc_roundtrip (data : List Nat) (h : Tiles data) :
    (split_desc data).1.flatten = data ∧ (split_desc data).2 = false :=
  split_desc_go_of_tiles data h data 0 data.length (by simp) (by simp)

/-- Claim C7 witness on the two-descriptor buffer [3,7,8] ++ [2,9]. -/
theorem split_desc_roundtrip_witness :
    Tiles [3, 7, 8, 2, 9]
    ∧ ((split_desc [3, 7, 8, 2, 9]).1.flatten = [3, 7, 8, 2, 9]
      ∧ (split_desc [3, 7, 8, 2, 9]).2 = false) :=
  have ht : Tiles [3, 7, 8, 2, 9] :=
    Tiles.cons 3 [7, 8, 2, 9] (by decide) (by decide)
      (Tiles.cons 2 [9] (by decide) (by decide) Tiles.nil)
  ⟨ht, split_desc_roundtrip [3, 7, 8, 2, 9] ht⟩

theorem parse_usage_page_shape (d : Option Nat) :
    parse_usage_page d = .ok () ∨ parse_usage_page d = .error PyErr.typeError := by
  cases d <;> simp [parse_usage_page]

theorem parse_generic_desktop_usage_shape (d : Option Nat) :
    parse_generic_desktop_usage d = .ok ()
      ∨ parse_generic_desktop_usage d = .error PyErr.typeError := by
  cases d <;> simp [parse_generic_desktop_usage]

theorem parse_collection_type_shape (d : Option Nat) :
    parse_collection_type d = .ok ()
      ∨ parse_collection_type d = .error PyErr.typeError := by
  cases d <;> simp [parse_collection_type]

theorem parse_usage_shape (up : Option Nat) (size : Nat) (d : Option Nat) :
    parse_usage up size d = .ok ()
      ∨ parse_usage up size d = .error PyErr.attributeError
      ∨ parse_usage up size d = .error PyErr.typeError := by
  cases up with
  | none => simp [parse_usage]
  | some u =>
    by_cases h3 : size = 3
    · subst h3
      simp only [parse_usage, reduceIte]
      split
      · exact (parse_generic_desktop_usage_shape _).imp id Or.inr
      · exact Or.inl rfl
    · simp only [parse_usage, if_neg h3]
      split
      · exact (parse_generic_desktop_usage_shape _).imp id Or.inr
      · cases d
        · exact Or.inr (Or.inr rfl)
        · exact Or.inl rfl

set_option maxHeartbeats 1000000 in
theorem parse_item_no_long (st : HIDState) (tag_type size : Nat) (d : Option Nat)
    (h : tag_type ≠ HID_LONG_ITEM) :
    parse_item st tag_type size d ≠ Except.error PyErr.valueErrorLongItem := by
  unfold parse_item
  rw [if_neg h]
  intro hc
  by_cases h0 : tag_type = HID_MAIN_00_NOP
  · rw [if_pos h0] at hc; simp at hc
  rw [if_neg h0] at hc
  by_cases h1 : tag_type = HID_USAGE_PAGE
  · rw [if_pos h1] at hc
    rcases parse_usage_page_shape d with hs | hs <;> rw [hs] at hc <;> simp at hc
  rw [if_neg h1] at hc
  by_cases h2 : tag_type = HID_LOGICAL_MIN
  · rw [if_pos h2] at hc; simp at hc
  rw [if_neg h2] at hc
  by_cases h3 : tag_type = HID_LOGICAL_MAX
  · rw [if_pos h3] at hc; simp at hc
  rw [if_neg h3] at hc
  by_cases h4 : tag_type = HID_PHYSICAL_MIN
  · rw [if_pos h4] at hc; simp at hc
  rw [if_neg h4] at hc
  by_cases h5 : tag_type = HID_PHYSICAL_MAX
  · rw [if_pos h5] at hc; simp at hc
  rw [if_neg h5] at hc
  by_cases h6 : tag_type = HID_UNIT_EXPONENT
  · rw [if_pos h6] at hc; simp at hc
  rw [if_neg h6] at hc
  by_cases h7 : tag_type = HID_UNIT
  · rw [if_pos h7] at hc; simp at hc
  rw [if_neg h7] at hc
  by_cases h8 : tag_type = HID_REPORT_SIZE
  · rw [if_pos h8] at hc; simp at hc
  rw [if_neg h8] at hc
  by_cases h9 : tag_type = HID_REPORT_ID
  · rw [if_pos h9] at hc
    cases d <;> simp at hc
  rw [if_neg h9] at hc
  by_cases h10 : tag_type = HID_REPORT_COUNT
  · rw [if_pos h10] at hc; simp at hc
  rw [if_neg h10] at hc
  by_cases h11 : tag_type = HID_PUSH
  · rw [if_pos h11] at hc; simp at hc
  rw [if_neg h11] at hc
  by_cases h12 : tag_type = HID_POP
  · rw [if_pos h12] at hc; simp at hc
  rw [if_neg h12] at hc
  by_cases h13 : tag_type = HID_USAGE
  · rw [if_pos h13] at hc
    rcases parse_usage_shape st.usage_page size d with hs | hs | hs <;> rw [hs] at hc <;>
      simp at hc
  rw [if_neg h13] at hc
  by_cases h14 : tag_type = HID_USAGE_MIN
  · rw [if_pos h14] at hc; simp at hc
  rw [if_neg h14] at hc
  by_cases h15 : tag_type = HID_USAGE_MAX
  · rw [if_pos h15] at hc; simp at hc
  rw [if_neg h15] at hc
  by_cases h16 : tag_type = HID_DESIGNATOR_IDX
  · rw [if_pos h16] at hc; simp at hc
  rw [if_neg h16] at hc
  by_cases h17 : tag_type = HID_DESIGNATOR_MIN
  · rw [if_pos h17] at hc; simp at hc
  rw [if_neg h17] at hc
  by_cases h18 : tag_type = HID_DESIGNATOR_MAX
  · rw [if_pos h18] at hc; simp at hc
  rw [if_neg h18] at hc
  by_cases h19 : tag_type = HID_STRING_IDX
  · rw [if_pos h19] at hc; simp at hc
  rw [if_neg h19] at hc
  by_cases h20 : tag_type = HID_STRING_MIN
  · rw [if_pos h20] at hc; simp at hc
  rw [if_neg h20] at hc
  by_cases h21 : tag_type = HID_STRING_MAX
  · rw [if_pos h21] at hc; simp at hc
  rw [if_neg h21] at hc
  by_cases h22 : tag_type = HID_DELIMITER
  · rw [if_pos h22] at hc; simp at hc
  rw [if_neg h22] at hc
  by_cases h23 : tag_type = HID_INPUT
  · rw [if_pos h23] at hc; simp at hc
  rw [if_neg h23] at hc
  by_cases h24 : tag_type = HID_OUTPUT
  · rw [if_pos h24] at hc; simp at hc
  rw [if_neg h24] at hc
  by_cases h25 : tag_type = HID_FEATURE
  · rw [if_pos h25] at hc; simp at hc
  rw [if_neg h25] at hc
  by_cases h26 : tag_type = HID_COLLECTION
  · rw [if_pos h26] at hc
    rcases parse_collection_type_shape d with hs | hs <;> rw [hs] at hc <;> simp at hc
  rw [if_neg h26] at hc
  by_cases h27 : tag_type = HID_END_COLLECTION
  · rw [if_pos h27] at hc; simp at hc
  rw [if_neg h27] at hc
  simp at hc

theorem hid_parse_go_no_long (data : List Nat) :
    ∀ (fuel : Nat) (st : HIDState) (cursor : Nat),
      hid_parse_go data fuel st cursor ≠ Except.error PyErr.valueErrorLongItem := by
  intro fuel
  induction fuel with
  | zero => intro st cursor; simp [hid_parse_go]
  | succ f ih =>
    intro st cursor
    simp only [hid_parse_go]
    split
    · simp
    · split
      · next e heq =>
        intro hc
        injection hc with hce
        subst hce
        split_ifs at heq
        all_goals simp_all
      · next d heq =>
        split
        · next e heq2 =>
          intro hc
          injection hc with hce
          subst hce
          refine absurd heq2 (parse_item_no_long st _ _ d ?_)
          have hm : (HID_TAG_MASK ||| HID_TYPE_MASK : Nat) = 0xFC := by decide
          simp only [hm, HID_LONG_ITEM]
          exact land_fc_ne_fe _
        · next st' heq2 =>
          split
          · simp
          · exact ih st' _

/-- Claim C5: the long-item check in parse_item is dead code — tag_type is
prefix AND 0xFC, whose low two bits are always clear, so it never equals
0xFE. The descriptor [0xFE, 0, 0] (a long-item prefix) parses successfully
as an ordinary 2-byte short item, and no input at all produces the
"Long items not supported" ValueError. -/
theorem hid_long_item_not_rejected :
    hid_parse [0xFE, 0x00, 0x00] = .ok hid_init_state
    ∧ ∀ data : List Nat, hid_parse data ≠ .error PyErr.valueErrorLongItem :=
  ⟨by rfl, fun data => hid_parse_go_no_long data data.length hid_init_state 0⟩

/-- Claim C6: the report-descriptor scan can crash outside its declared
ValueError contract. [0x09, 0x01] is a Usage item (with payload) before any
Usage Page item: parse_usage reads self.usage_page, which __init__ never
initialises, raising AttributeError. [0x07, 0, 0, 0] is a size-3 (4-byte
payload) item ending exactly at the buffer end: the bounds check only
guarantees size+1 = 4 bytes but unpack_from('<I', data, cursor+1) reads 4
bytes starting one past the prefix, one byte beyond the buffer. -/
theorem hid_parse_crashes :
    hid_parse [0x09, 0x01] = .error PyErr.attributeError
    ∧ hid_parse [0x07, 0x00, 0x00, 0x00] = .error PyErr.structError :=
  ⟨by rfl, by rfl⟩
